import Mathlib

/-!
Shallow embedding of the flag-submission core of `r8/util.py`:
the flag normalizer (`correct_flag`), the audit log (`log` with its
polymorphic ip-source extraction), the team resolver, and the
submission validator (`submit_flag`), together with theorems checking
the natural-language specification against this embedding.

The relational store (SQLite tables `users`, `teams`, `challenges`,
`flags`, `submissions`, `events`) is modelled as lists of rows; SQL
queries are translated into list operations; `datetime('now')` and the
`t_start`/`t_stop` columns are modelled as integers ordered like the
timestamps they denote (SQLite compares the ISO datetime strings
lexicographically, which is chronological order).
-/

namespace R8

/-! ### Flag normalizer (`correct_flag`) -/

/-- A character matched by the Python regex character class `[0-9a-f]`. -/
def isHexLower (c : Char) : Bool :=
  ('0' ≤ c && c ≤ '9') || ('a' ≤ c && c ≤ 'f')

/-- ASCII model of Python `str.lower` on a single character. -/
def lowerChar (c : Char) : Char :=
  if 'A' ≤ c ∧ c ≤ 'Z' then Char.ofNat (c.toNat + 32) else c

/-- Does the regex `[0-9a-f]{32}` match at the start of `l`? -/
def hexWindow (l : List Char) : Bool :=
  decide (32 ≤ l.length) && (l.take 32).all isHexLower

/-- Model of `re.search(r"[0-9a-f]{32}", ...)`: try each start position
left to right and return the first 32-character all-hex window. -/
def searchHex32 : List Char → Option (List Char)
  | [] => none
  | c :: rest =>
    if hexWindow (c :: rest) = true then some ((c :: rest).take 32)
    else searchHex32 rest

/-- Model of `flag.replace(" ", "").lower()`: drop every space
character, then lowercase. -/
def cleanFlag (l : List Char) : List Char :=
  (l.filter (fun c => ¬ (c = ' '))).map lowerChar

/-- The canonical form `"__flag__{" + run + "}"`. -/
def flagWrap (run : List Char) : List Char :=
  '_' :: '_' :: 'f' :: 'l' :: 'a' :: 'g' :: '_' :: '_' :: '\x7b' :: (run ++ ['\x7d'])

/-- `correct_flag` from `r8/util.py`, on character lists. -/
def correct_flag (l : List Char) : List Char :=
  match searchHex32 (cleanFlag l) with
  | some run => flagWrap run
  | none => l

/-- `correct_flag` on strings, as called by `submit_flag`. -/
def correct_flagS (s : String) : String :=
  String.mk (correct_flag s.data)

/-! ### Store model -/

/-- Row of the `challenges` table (columns used by the core). -/
structure Challenge where
  cid : String
  t_start : Int
  t_stop : Int
  team : Bool
deriving DecidableEq

/-- Row of the `flags` table. -/
structure FlagRow where
  fid : String
  cid : String
  max_submissions : Int
deriving DecidableEq

/-- Row of the `submissions` table (timestamp column omitted: it is
never read by the core). -/
structure SubRow where
  uid : String
  fid : String
deriving DecidableEq

/-- Row of the `events` table (id and timestamp omitted: assigned by
the store, never read by the core). -/
structure Event where
  ip : String
  type : String
  data : Option String
  cid : Option String
  uid : Option String
deriving DecidableEq

/-- The relational store. `teams` rows are `(uid, tid)` pairs. -/
structure Store where
  users : List String
  teams : List (String × String)
  challenges : List Challenge
  flags : List FlagRow
  submissions : List SubRow
  events : List Event
deriving DecidableEq

/-! ### Audit log and ip-source extraction -/

/-- The `THasIP` union: a raw address string, an `(address, port)`
tuple, a transport/stream-writer (carrying its `peername` address
tuple), or a web request (optional `X-Forwarded-For` header, plus the
transport's `peername`). -/
inductive IpSource where
  | str (s : String)
  | addr (host : String) (port : Int)
  | transport (peerHost : String) (peerPort : Int)
  | request (forwardedFor : Option String) (peerHost : String) (peerPort : Int)
deriving DecidableEq

/-- The isinstance-chain at the top of `log`: request → forwarding
header if present else transport; transport → peername tuple; tuple →
first element; string → itself. -/
def extract_ip : IpSource → String
  | .str s => s
  | .addr host _ => host
  | .transport peerHost _ => peerHost
  | .request (some fwd) _ _ => fwd
  | .request none peerHost _ => peerHost

/-- `log` from `r8/util.py`: resolve the ip source and append one row
to `events`. -/
def log (s : Store) (ip : IpSource) (etype : String) (edata : Option String)
    (cid : Option String) (uid : Option String) : Store :=
  { s with events := s.events ++ [⟨extract_ip ip, etype, edata, cid, uid⟩] }

/-! ### Queries used by `submit_flag` -/

/-- `SELECT 1 FROM users WHERE uid = ?` (as a truth value). -/
def user_exists (s : Store) (user : String) : Bool :=
  s.users.any (fun u => u = user)

/-- `get_team`: `SELECT tid FROM teams WHERE uid = ?`, first row or
absence. -/
def get_team (s : Store) (user : String) : Option String :=
  (s.teams.find? (fun r => r.1 = user)).map (fun r => r.2)

/-- `SELECT uid FROM teams WHERE tid = (SELECT tid FROM teams WHERE uid = ?)`:
every user sharing the submitter's team; empty when the submitter has
no team row (the scalar subquery is NULL and matches nothing). -/
def teammates (s : Store) (user : String) : List String :=
  match get_team s user with
  | none => []
  | some t => (s.teams.filter (fun r => r.2 = t)).map (fun r => r.1)

/-- `SELECT cid FROM flags NATURAL INNER JOIN challenges WHERE fid = ?`:
first flag row with this fid that joins to some challenge row on cid. -/
def flag_challenge (s : Store) (flag : String) : Option String :=
  (s.flags.find? (fun fl => fl.fid = flag ∧ s.challenges.any (fun ch => ch.cid = fl.cid))).map
    (fun fl => fl.cid)

/-- `SELECT 1 FROM challenges WHERE cid = ? AND datetime('now') BETWEEN
t_start AND t_stop` — SQL `BETWEEN` is inclusive at both ends. -/
def is_active (s : Store) (now : Int) (cid : String) : Bool :=
  s.challenges.any (fun ch => ch.cid = cid ∧ ch.t_start ≤ now ∧ now ≤ ch.t_stop)

/-- Row set of the already-solved count: `submissions NATURAL INNER
JOIN flags NATURAL INNER JOIN challenges WHERE cid = ? AND (uid = ? OR
challenges.team = 1 AND submissions.uid IN teammates)`. -/
def solve_rows (s : Store) (cid user : String) : List (SubRow × FlagRow × Challenge) :=
  ((s.submissions.flatMap fun sub => s.flags.flatMap fun fl => s.challenges.map fun ch =>
      (sub, fl, ch)).filter
    (fun r => r.2.1.fid = r.1.fid ∧ r.2.2.cid = r.2.1.cid ∧ r.2.2.cid = cid ∧
      (r.1.uid = user ∨ (r.2.2.team = true ∧ (teammates s user).any fun u => u = r.1.uid))))

/-- `SELECT COUNT(*)` over `solve_rows`. -/
def already_submitted (s : Store) (cid user : String) : Nat :=
  (solve_rows s cid user).length

/-- `SELECT COUNT(*) FROM submissions WHERE submissions.fid = ?`. -/
def sub_count (s : Store) (fid : String) : Nat :=
  s.submissions.countP (fun sub => sub.fid = fid)

/-- `SELECT 1 FROM flags WHERE fid = ? AND (SELECT COUNT(*) FROM
submissions WHERE flags.fid = submissions.fid) >= max_submissions`. -/
def is_oversubscribed (s : Store) (flag : String) : Bool :=
  s.flags.any (fun fl => fl.fid = flag ∧ fl.max_submissions ≤ (sub_count s fl.fid : Int))

/-- `INSERT INTO submissions (uid, fid) VALUES (?, ?)`. -/
def insert_submission (s : Store) (user fid : String) : Store :=
  { s with submissions := s.submissions ++ [⟨user, fid⟩] }

/-- The message of the unknown-flag rejection, exactly as in the source. -/
def unknownFlagMsg : String := "Unknown Flag ¯\\_(ツ)_/¯"

/-- `submit_flag` from `r8/util.py`. Returns the updated store together
with either the challenge id (`Except.ok`) or the `ValueError` message
(`Except.error`). `now` is the value of `datetime('now')`. -/
def submit_flag (s : Store) (now : Int) (rawFlag user : String) (ip : IpSource)
    (force : Bool) : Store × Except String String :=
  let flag := correct_flagS rawFlag
  if user_exists s user = false then
    (log s ip "flag-err-unknown" (some flag) none none, .error "Unknown user.")
  else
    match flag_challenge s flag with
    | none =>
      (log s ip "flag-err-unknown" (some flag) none (some user), .error unknownFlagMsg)
    | some cid =>
      if cid = "" then
        (log s ip "flag-err-unknown" (some flag) none (some user), .error unknownFlagMsg)
      else if is_active s now cid = false ∧ force = false then
        (log s ip "flag-err-inactive" (some flag) (some cid) (some user),
          .error "Challenge is not active.")
      else if already_submitted s cid user ≠ 0 then
        (log s ip "flag-err-solved" (some flag) (some cid) (some user),
          .error "Challenge already solved.")
      else if is_oversubscribed s flag = true ∧ force = false then
        (log s ip "flag-err-used" (some flag) (some cid) (some user),
          .error "Flag already used too often.")
      else
        (insert_submission (log s ip "flag-submit" (some flag) (some cid) (some user))
          user flag, .ok cid)

/-! ### Spec-side formulations of the normalizer -/

/-- Index-based search (spec wording): the smallest start index at
which 32 consecutive hex characters occur, if any, together with that
window. -/
def specFindRun (l : List Char) : Option (List Char) :=
  ((List.range (l.length + 1)).find? (fun i => hexWindow (l.drop i))).map
    (fun i => (l.drop i).take 32)

/-- The amended normalizer claim, in the spec's own terms: remove every
space character (other whitespace is kept), lowercase, then look for
the leftmost 32-character hex window; wrap it if found, otherwise
return the input unchanged. -/
def normalize_amended (l : List Char) : List Char :=
  match specFindRun ((l.filter (fun c => ¬ (c = ' '))).map lowerChar) with
  | some run => flagWrap run
  | none => l

/-- The normalizer exactly as the original claim words it: strip ALL
whitespace (not just spaces), lowercase, then look for a 32-character
hex window. -/
def normalize_claimed (l : List Char) : List Char :=
  match specFindRun ((l.filter (fun c => ¬ (c.isWhitespace = true))).map lowerChar) with
  | some run => flagWrap run
  | none => l

/-! ### Normalizer lemmas -/

theorem hexWindow_cons_head_false {c : Char} (l : List Char)
    (h : isHexLower c = false) : hexWindow (c :: l) = false := by
  unfold hexWindow
  have : (32 : Nat) = 31 + 1 := rfl
  rw [this, List.take_succ_cons, List.all_cons, h, Bool.false_and, Bool.and_false]

theorem hexWindow_cons_snd_false {c₁ c₂ : Char} (l : List Char)
    (h : isHexLower c₂ = false) : hexWindow (c₁ :: c₂ :: l) = false := by
  unfold hexWindow
  have h32 : (32 : Nat) = 31 + 1 := rfl
  have h31 : (31 : Nat) = 30 + 1 := rfl
  rw [h32, List.take_succ_cons, h31, List.take_succ_cons, List.all_cons, List.all_cons, h,
    Bool.false_and, Bool.and_false, Bool.and_false]

theorem searchHex32_cons_neg {c : Char} {l : List Char}
    (h : hexWindow (c :: l) = false) : searchHex32 (c :: l) = searchHex32 l := by
  simp [searchHex32, h]

theorem searchHex32_pos {l : List Char} (h : hexWindow l = true) :
    searchHex32 l = some (l.take 32) := by
  cases l with
  | nil => simp [hexWindow] at h
  | cons c rest => simp [searchHex32, h]

theorem specFindRun_cons_pos {c : Char} {l : List Char} (h : hexWindow (c :: l) = true) :
    specFindRun (c :: l) = some ((c :: l).take 32) := by
  unfold specFindRun
  have hr : List.range ((c :: l).length + 1) = 0 :: (List.range (l.length + 1)).map Nat.succ := by
    simp [List.range_succ_eq_map]
  rw [hr, List.find?_cons_of_pos _ (by simpa using h)]
  simp

theorem specFindRun_cons_neg {c : Char} {l : List Char} (h : hexWindow (c :: l) = false) :
    specFindRun (c :: l) = specFindRun l := by
  unfold specFindRun
  have hr : List.range ((c :: l).length + 1) = 0 :: (List.range (l.length + 1)).map Nat.succ := by
    simp [List.range_succ_eq_map]
  rw [hr, List.find?_cons_of_neg _ (by simp [h]), List.find?_map, Option.map_map]
  have hp : ((fun i => hexWindow ((c :: l).drop i)) ∘ Nat.succ) =
      (fun i => hexWindow (l.drop i)) := by
    funext i
    simp
  have hq : ((fun i => ((c :: l).drop i).take 32) ∘ Nat.succ) =
      (fun i => (l.drop i).take 32) := by
    funext i
    simp
  rw [hp, hq]

theorem searchHex32_eq_specFindRun (l : List Char) : searchHex32 l = specFindRun l := by
  induction l with
  | nil => rfl
  | cons c rest ih =>
    by_cases h : hexWindow (c :: rest) = true
    · rw [searchHex32_pos h, specFindRun_cons_pos h]
    · have h' : hexWindow (c :: rest) = false := by
        simpa using h
      rw [searchHex32_cons_neg h', specFindRun_cons_neg h', ih]

theorem searchHex32_mem_spec {l r : List Char} (h : searchHex32 l = some r) :
    r.length = 32 ∧ r.all isHexLower = true := by
  induction l with
  | nil => simp [searchHex32] at h
  | cons c rest ih =>
    by_cases hw : hexWindow (c :: rest) = true
    · simp only [searchHex32, hw, if_true, Option.some.injEq] at h
      subst h
      have h32 : 32 ≤ (c :: rest).length := by
        have := hw
        unfold hexWindow at this
        exact of_decide_eq_true (Bool.and_elim_left this)
      constructor
      · simpa [List.length_take] using Nat.min_eq_left h32
      · have := hw
        unfold hexWindow at this
        exact Bool.and_elim_right this
    · simp only [searchHex32, hw, if_false] at h
      exact ih h

theorem hex_ne_space {c : Char} (h : isHexLower c = true) : ¬ (c = ' ') := by
  intro hc
  subst hc
  simp [isHexLower] at h

theorem lowerChar_hex {c : Char} (h : isHexLower c = true) : lowerChar c = c := by
  unfold lowerChar
  rw [if_neg]
  rintro ⟨h1, h2⟩
  unfold isHexLower at h
  rcases Bool.or_eq_true_iff.mp h with h' | h'
  · have hc9 : c ≤ '9' := by
      have := Bool.and_elim_right h'
      exact of_decide_eq_true this
    exact absurd (le_trans h1 hc9) (by decide)
  · have hca : 'a' ≤ c := by
      have := Bool.and_elim_left h'
      exact of_decide_eq_true this
    exact absurd (le_trans hca h2) (by decide)

theorem map_lowerChar_hex {run : List Char} (hall : run.all isHexLower = true) :
    run.map lowerChar = run := by
  induction run with
  | nil => rfl
  | cons a t ih =>
    rw [List.all_cons, Bool.and_eq_true] at hall
    rw [List.map_cons, lowerChar_hex hall.1, ih hall.2]

theorem clean_flagWrap {run : List Char} (hall : run.all isHexLower = true) :
    cleanFlag (flagWrap run) = flagWrap run := by
  unfold cleanFlag
  have hfil : (flagWrap run).filter (fun c => ¬ (c = ' ')) = flagWrap run := by
    rw [List.filter_eq_self]
    intro a ha
    unfold flagWrap at ha
    simp only [List.mem_cons, List.mem_append, List.mem_singleton, List.mem_nil_iff,
      or_false] at ha
    rcases ha with h|h|h|h|h|h|h|h|h|h|h
    case inr.inr.inr.inr.inr.inr.inr.inr.inr.inl =>
      rw [List.all_eq_true] at hall
      simpa using hex_ne_space (hall a h)
    all_goals subst h
    all_goals decide
  rw [hfil]
  unfold flagWrap
  have hu : lowerChar '_' = '_' := by decide
  have hf : lowerChar 'f' = 'f' := by decide
  have hl : lowerChar 'l' = 'l' := by decide
  have ha : lowerChar 'a' = 'a' := by decide
  have hg : lowerChar 'g' = 'g' := by decide
  have hob : lowerChar '\x7b' = '\x7b' := by decide
  have hcb : lowerChar '\x7d' = '\x7d' := by decide
  simp only [List.map_cons, List.map_append, List.map_nil, hu, hf, hl, ha, hg, hob, hcb,
    map_lowerChar_hex hall]

theorem searchHex32_flagWrap {run : List Char} (hlen : run.length = 32)
    (hall : run.all isHexLower = true) : searchHex32 (flagWrap run) = some run := by
  have htake : (run ++ ['\x7d']).take 32 = run := by
    rw [← hlen]
    exact List.take_left run _
  have hwin : hexWindow (run ++ ['\x7d']) = true := by
    unfold hexWindow
    rw [htake, hall, Bool.and_true]
    simp [hlen]
  unfold flagWrap
  rw [searchHex32_cons_neg (hexWindow_cons_head_false _ (by decide)),
    searchHex32_cons_neg (hexWindow_cons_head_false _ (by decide)),
    searchHex32_cons_neg (hexWindow_cons_snd_false _ (by decide)),
    searchHex32_cons_neg (hexWindow_cons_head_false _ (by decide)),
    searchHex32_cons_neg (hexWindow_cons_snd_false _ (by decide)),
    searchHex32_cons_neg (hexWindow_cons_head_false _ (by decide)),
    searchHex32_cons_neg (hexWindow_cons_head_false _ (by decide)),
    searchHex32_cons_neg (hexWindow_cons_head_false _ (by decide)),
    searchHex32_cons_neg (hexWindow_cons_head_false _ (by decide)),
    searchHex32_pos hwin, htake]

/-! ### Lemmas about the submission validator's queries -/

theorem mem_solve_rows {s : Store} {cid user : String} {sub : SubRow} {fl : FlagRow}
    {ch : Challenge} :
    (sub, fl, ch) ∈ solve_rows s cid user ↔
      sub ∈ s.submissions ∧ fl ∈ s.flags ∧ ch ∈ s.challenges ∧
      fl.fid = sub.fid ∧ ch.cid = fl.cid ∧ ch.cid = cid ∧
      (sub.uid = user ∨ (ch.team = true ∧ sub.uid ∈ teammates s user)) := by
  unfold solve_rows
  simp only [List.mem_filter, List.mem_flatMap, List.mem_map, decide_eq_true_eq,
    List.any_eq_true, exists_eq_right, Prod.mk.injEq]
  constructor
  · rintro ⟨⟨s', hs', f', hf', c', hc', heq1, heq2, heq3⟩, hcond⟩
    subst heq1
    subst heq2
    subst heq3
    exact ⟨hs', hf', hc', hcond.1, hcond.2.1, hcond.2.2.1, hcond.2.2.2⟩
  · rintro ⟨hs', hf', hc', h1, h2, h3, h4⟩
    exact ⟨⟨sub, hs', fl, hf', ch, hc', rfl, rfl, rfl⟩, h1, h2, h3, h4⟩

theorem already_submitted_ne_zero {s : Store} {cid user : String} :
    already_submitted s cid user ≠ 0 ↔
      ∃ sub fl ch, (sub, fl, ch) ∈ solve_rows s cid user := by
  unfold already_submitted
  constructor
  · intro h
    obtain ⟨r, hr⟩ := List.exists_mem_of_ne_nil (solve_rows s cid user)
      (fun hnil => h (by rw [hnil]; rfl))
    exact ⟨r.1, r.2.1, r.2.2, hr⟩
  · rintro ⟨sub, fl, ch, hmem⟩
    intro hlen
    rw [List.length_eq_zero] at hlen
    rw [hlen] at hmem
    exact (List.not_mem_nil _) hmem

theorem is_active_of_filter {s : Store} {ch : Challenge} {c : String} {now : Int}
    (hch : s.challenges.filter (fun x => x.cid = c) = [ch]) :
    is_active s now c = true ↔ (ch.t_start ≤ now ∧ now ≤ ch.t_stop) := by
  unfold is_active
  rw [List.any_eq_true]
  constructor
  · rintro ⟨x, hx, hcond⟩
    simp only [decide_eq_true_eq] at hcond
    have hxf : x ∈ s.challenges.filter (fun x => x.cid = c) :=
      List.mem_filter.mpr ⟨hx, by simp [hcond.1]⟩
    rw [hch, List.mem_singleton] at hxf
    subst hxf
    exact hcond.2
  · rintro ⟨h1, h2⟩
    have hm : ch ∈ s.challenges.filter (fun x => x.cid = c) := by
      rw [hch]
      exact List.mem_singleton.mpr rfl
    obtain ⟨hmem, hpred⟩ := List.mem_filter.mp hm
    refine ⟨ch, hmem, ?_⟩
    simp only [decide_eq_true_eq] at hpred ⊢
    exact ⟨hpred, h1, h2⟩

theorem is_oversubscribed_of_filter {s : Store} {fl : FlagRow} {nf : String}
    (hfl : s.flags.filter (fun f => f.fid = nf) = [fl]) :
    is_oversubscribed s nf = true ↔ fl.max_submissions ≤ (sub_count s nf : Int) := by
  have hflmem : fl ∈ s.flags ∧ fl.fid = nf := by
    have hm : fl ∈ s.flags.filter (fun f => f.fid = nf) := by
      rw [hfl]
      exact List.mem_singleton.mpr rfl
    obtain ⟨hmem, hpred⟩ := List.mem_filter.mp hm
    exact ⟨hmem, by simpa using hpred⟩
  unfold is_oversubscribed
  rw [List.any_eq_true]
  constructor
  · rintro ⟨x, hx, hcond⟩
    simp only [decide_eq_true_eq] at hcond
    have hxf : x ∈ s.flags.filter (fun f => f.fid = nf) :=
      List.mem_filter.mpr ⟨hx, by simp [hcond.1]⟩
    rw [hfl, List.mem_singleton] at hxf
    subst hxf
    rw [hcond.1] at hcond
    exact hcond.2
  · intro h
    refine ⟨fl, hflmem.1, ?_⟩
    simp only [decide_eq_true_eq]
    refine ⟨hflmem.2, ?_⟩
    rw [hflmem.2]
    exact h

/-- Branch reduction: once the submitting user is missing, `submit_flag`
rejects immediately. -/
theorem submit_flag_user_missing {s : Store} {now : Int} {raw user : String} {ip : IpSource}
    {force : Bool} (hu : user_exists s user = false) :
    submit_flag s now raw user ip force =
      (log s ip "flag-err-unknown" (some (correct_flagS raw)) none none,
        .error "Unknown user.") := by
  unfold submit_flag
  simp [hu]

/-- Branch reduction: user exists but the normalized flag joins to no
challenge. -/
theorem submit_flag_flag_unknown {s : Store} {now : Int} {raw user : String} {ip : IpSource}
    {force : Bool} (hu : user_exists s user = true)
    (hc : flag_challenge s (correct_flagS raw) = none) :
    submit_flag s now raw user ip force =
      (log s ip "flag-err-unknown" (some (correct_flagS raw)) none (some user),
        .error unknownFlagMsg) := by
  unfold submit_flag
  simp [hu, hc]

/-- Branch reduction: the first three checks pass and the window check
passes (or is forced), leaving the solved and exhaustion checks. -/
theorem submit_flag_active_branch {s : Store} {now : Int} {raw user c : String}
    {ip : IpSource} {force : Bool} (hu : user_exists s user = true)
    (hc : flag_challenge s (correct_flagS raw) = some c) (hcne : ¬ c = "")
    (hact : is_active s now c = true ∨ force = true) :
    submit_flag s now raw user ip force =
      (if already_submitted s c user ≠ 0 then
        (log s ip "flag-err-solved" (some (correct_flagS raw)) (some c) (some user),
          .error "Challenge already solved.")
      else if is_oversubscribed s (correct_flagS raw) = true ∧ force = false then
        (log s ip "flag-err-used" (some (correct_flagS raw)) (some c) (some user),
          .error "Flag already used too often.")
      else
        (insert_submission (log s ip "flag-submit" (some (correct_flagS raw)) (some c)
          (some user)) user (correct_flagS raw), .ok c)) := by
  unfold submit_flag
  rcases hact with hact | hact <;> simp [hu, hc, hcne, hact]

/-- Exhaustive enumeration of the outcomes of `submit_flag`: exactly one
log append happens, and the pair returned is one of the six branch
results. -/
theorem submit_flag_branches (s : Store) (now : Int) (raw user : String) (ip : IpSource)
    (force : Bool) :
    (submit_flag s now raw user ip force =
      (log s ip "flag-err-unknown" (some (correct_flagS raw)) none none,
        .error "Unknown user.")) ∨
    (submit_flag s now raw user ip force =
      (log s ip "flag-err-unknown" (some (correct_flagS raw)) none (some user),
        .error unknownFlagMsg)) ∨
    (∃ c, submit_flag s now raw user ip force =
      (log s ip "flag-err-inactive" (some (correct_flagS raw)) (some c) (some user),
        .error "Challenge is not active.") ∧ force = false) ∨
    (∃ c, submit_flag s now raw user ip force =
      (log s ip "flag-err-solved" (some (correct_flagS raw)) (some c) (some user),
        .error "Challenge already solved.")) ∨
    (∃ c, submit_flag s now raw user ip force =
      (log s ip "flag-err-used" (some (correct_flagS raw)) (some c) (some user),
        .error "Flag already used too often.") ∧ force = false) ∨
    (∃ c, submit_flag s now raw user ip force =
      (insert_submission (log s ip "flag-submit" (some (correct_flagS raw)) (some c)
        (some user)) user (correct_flagS raw), .ok c)) := by
  by_cases hu : user_exists s user = false
  · exact Or.inl (by simp [submit_flag, hu])
  · cases hc : flag_challenge s (correct_flagS raw) with
    | none => exact Or.inr (Or.inl (by simp [submit_flag, hu, hc]))
    | some c =>
      by_cases hce : c = ""
      · exact Or.inr (Or.inl (by simp [submit_flag, hu, hc, hce]))
      · by_cases hact : is_active s now c = false ∧ force = false
        · exact Or.inr (Or.inr (Or.inl ⟨c, by simp [submit_flag, hu, hc, hce, hact],
            hact.2⟩))
        · have hu' : user_exists s user = true := by
            cases h : user_exists s user with
            | false => exact absurd h hu
            | true => rfl
          have hact' : is_active s now c = true ∨ force = true := by
            cases h1 : is_active s now c with
            | true => exact Or.inl rfl
            | false =>
              cases h2 : force with
              | true => exact Or.inr rfl
              | false => exact absurd ⟨h1, h2⟩ hact
          rw [submit_flag_active_branch hu' hc hce hact']
          by_cases hsol : already_submitted s c user = 0
          · by_cases hover : is_oversubscribed s (correct_flagS raw) = true ∧ force = false
            · exact Or.inr (Or.inr (Or.inr (Or.inr (Or.inl ⟨c,
                by simp [hsol, hover], hover.2⟩))))
            · exact Or.inr (Or.inr (Or.inr (Or.inr (Or.inr ⟨c,
                by simp [hsol, hover]⟩))))
          · exact Or.inr (Or.inr (Or.inr (Or.inl ⟨c, by simp [hsol]⟩)))

/-! ### Claims about the normalizer -/

/-- Concrete input refuting the original wording of claim C7: a tab
character inside what would otherwise be a 32-hex run. -/
def tabInput : List Char := List.replicate 16 'a' ++ '\t' :: List.replicate 16 'a'

/-- Claim C7 (counterexample to the original wording): the code strips
only space characters, not all whitespace. On an input whose 32-hex run
is interrupted by a tab, `correct_flag` returns the input unchanged,
while the claimed behaviour (strip all whitespace first) would return
the canonical wrapped flag. -/
theorem claim_C7_counterexample :
    correct_flag tabInput = tabInput ∧
    normalize_claimed tabInput = flagWrap (List.replicate 32 'a') ∧
    correct_flag tabInput ≠ normalize_claimed tabInput := by
  refine ⟨by decide, by decide, by decide⟩

/-- Claim C7 (amended): for every input, `correct_flag` removes every
space character (other whitespace is preserved), lowercases the result,
and searches for the leftmost position at which 32 consecutive
hexadecimal characters occur; if one exists it returns
`"__flag__\x7b" ++ window ++ "\x7d"` for that leftmost window, and
otherwise it returns the original input completely unchanged. -/
theorem claim_C7_normalizer_amended (l : List Char) :
    correct_flag l = normalize_amended l := by
  unfold correct_flag normalize_amended cleanFlag
  rw [searchHex32_eq_specFindRun]

/-- Claim C10: the flag normalizer is idempotent. -/
theorem claim_C10_normalizer_idempotent (l : List Char) :
    correct_flag (correct_flag l) = correct_flag l := by
  cases h : searchHex32 (cleanFlag l) with
  | none =>
    have hl : correct_flag l = l := by
      unfold correct_flag
      rw [h]
    rw [hl]
    exact hl
  | some run =>
    obtain ⟨hlen, hall⟩ := searchHex32_mem_spec h
    have h1 : correct_flag l = flagWrap run := by
      unfold correct_flag
      rw [h]
    rw [h1]
    unfold correct_flag
    rw [clean_flagWrap hall, searchHex32_flagWrap hlen hall]

/-! ### Claims about the audit log and the submission validator -/

/-- Claim C8: the audit log stores one textual address per source: a
request prefers the forwarding header when present and otherwise falls
back to the transport peer address; a transport yields its peer
address; an address tuple yields its first element; a raw string is
stored as-is. -/
theorem claim_C8_ip_extraction (s : Store) (ip : IpSource) (etype : String)
    (edata : Option String) (cid uid : Option String) :
    (log s ip etype edata cid uid).events =
      s.events ++ [⟨extract_ip ip, etype, edata, cid, uid⟩] ∧
    (∀ fwd h p, extract_ip (.request (some fwd) h p) = fwd) ∧
    (∀ h p, extract_ip (.request none h p) = h) ∧
    (∀ h p, extract_ip (.transport h p) = h) ∧
    (∀ h p, extract_ip (.addr h p) = h) ∧
    (∀ a, extract_ip (.str a) = a) :=
  ⟨rfl, fun _ _ _ => rfl, fun _ _ => rfl, fun _ _ => rfl, fun _ _ => rfl, fun _ => rfl⟩

/-- Claim C4: when the submitting user does not exist, `submit_flag`
fails with "Unknown user." regardless of the flag and of `force`, and
the logged `flag-err-unknown` event carries neither a uid nor a cid. -/
theorem claim_C4_unknown_user (s : Store) (now : Int) (raw user : String) (ip : IpSource)
    (force : Bool) (hu : user_exists s user = false) :
    (submit_flag s now raw user ip force).2 = .error "Unknown user." ∧
    (submit_flag s now raw user ip force).1.events =
      s.events ++ [⟨extract_ip ip, "flag-err-unknown", some (correct_flagS raw),
        none, none⟩] := by
  rw [submit_flag_user_missing hu]
  exact ⟨rfl, rfl⟩

/-- Witness for claim C4: in an empty store, an unknown user's
submission of an arbitrary flag with `force = true` fails with
"Unknown user." and logs an event without uid or cid. -/
theorem claim_C4_witness :
    (submit_flag ⟨[], [], [], [], [], []⟩ 0 "x" "mallory" (.str "10.0.0.9") true).2 =
      .error "Unknown user." ∧
    (submit_flag ⟨[], [], [], [], [], []⟩ 0 "x" "mallory" (.str "10.0.0.9") true).1.events =
      [] ++ [⟨extract_ip (.str "10.0.0.9"), "flag-err-unknown", some (correct_flagS "x"),
        none, none⟩] :=
  claim_C4_unknown_user ⟨[], [], [], [], [], []⟩ 0 "x" "mallory" (.str "10.0.0.9") true
    (by decide)

/-- Store for the claim C5 counterexample: the user exists, no flag row
exists. -/
def storeC5 : Store := ⟨["alice"], [], [], [], [], []⟩

/-- Claim C5 (counterexample to the original wording): the raised
message is not exactly "Unknown Flag." — the source raises
"Unknown Flag ¯\\_(ツ)_/¯". -/
theorem claim_C5_counterexample :
    (submit_flag storeC5 0 "zzz" "alice" (.str "10.0.0.9") false).2 =
      .error unknownFlagMsg ∧
    (submit_flag storeC5 0 "zzz" "alice" (.str "10.0.0.9") false).2 ≠
      .error "Unknown Flag." := by
  constructor
  · rfl
  · intro h
    have h2 : (Except.error unknownFlagMsg : Except String String) =
        .error "Unknown Flag." := by
      rw [← h]
      rfl
    have h3 := Except.error.inj h2
    exact absurd h3 (by decide)

/-- Claim C5 (amended): when the user exists but the normalized flag
joins to no challenge, `submit_flag` logs `flag-err-unknown` with the
submitting uid attached and no cid, and raises with the message
"Unknown Flag ¯\\_(ツ)_/¯" (not "Unknown Flag."). -/
theorem claim_C5_unknown_flag_amended (s : Store) (now : Int) (raw user : String)
    (ip : IpSource) (force : Bool) (hu : user_exists s user = true)
    (hc : flag_challenge s (correct_flagS raw) = none) :
    (submit_flag s now raw user ip force).2 = .error unknownFlagMsg ∧
    (submit_flag s now raw user ip force).1.events =
      s.events ++ [⟨extract_ip ip, "flag-err-unknown", some (correct_flagS raw),
        none, some user⟩] := by
  rw [submit_flag_flag_unknown hu hc]
  exact ⟨rfl, rfl⟩

/-- Witness for the amended claim C5. -/
theorem claim_C5_witness :
    (submit_flag storeC5 0 "zzz" "alice" (.str "10.0.0.9") true).2 =
      .error unknownFlagMsg ∧
    (submit_flag storeC5 0 "zzz" "alice" (.str "10.0.0.9") true).1.events =
      [] ++ [⟨extract_ip (.str "10.0.0.9"), "flag-err-unknown", some (correct_flagS "zzz"),
        none, some "alice"⟩] :=
  claim_C5_unknown_flag_amended storeC5 0 "zzz" "alice" (.str "10.0.0.9") true
    (by decide) (by decide)

/-- Claim C9: every call to `submit_flag` appends exactly one event —
`flag-submit` on success, the matching `flag-err-*` type on rejection —
and inserts a submission row if and only if the call succeeds; on every
rejection the submissions table is unchanged. -/
theorem claim_C9_event_accounting (s : Store) (now : Int) (raw user : String)
    (ip : IpSource) (force : Bool) :
    ∃ e : Event,
      (submit_flag s now raw user ip force).1.events = s.events ++ [e] ∧
      (∀ c, (submit_flag s now raw user ip force).2 = .ok c →
        e.type = "flag-submit" ∧
        (submit_flag s now raw user ip force).1.submissions =
          s.submissions ++ [⟨user, correct_flagS raw⟩]) ∧
      (∀ m, (submit_flag s now raw user ip force).2 = .error m →
        (submit_flag s now raw user ip force).1.submissions = s.submissions ∧
        (((m = "Unknown user." ∨ m = unknownFlagMsg) ∧ e.type = "flag-err-unknown") ∨
         (m = "Challenge is not active." ∧ e.type = "flag-err-inactive") ∨
         (m = "Challenge already solved." ∧ e.type = "flag-err-solved") ∨
         (m = "Flag already used too often." ∧ e.type = "flag-err-used"))) := by
  rcases submit_flag_branches s now raw user ip force with
    h | h | ⟨c, h, _⟩ | ⟨c, h⟩ | ⟨c, h, _⟩ | ⟨c, h⟩
  · refine ⟨⟨extract_ip ip, "flag-err-unknown", some (correct_flagS raw), none, none⟩,
      by rw [h]; rfl, ?_, ?_⟩
    · intro c hok
      rw [h] at hok
      exact absurd hok (by simp)
    · intro m hm
      rw [h] at hm
      obtain rfl := (Except.error.inj hm).symm
      exact ⟨by rw [h]; rfl, Or.inl ⟨Or.inl rfl, rfl⟩⟩
  · refine ⟨⟨extract_ip ip, "flag-err-unknown", some (correct_flagS raw), none, some user⟩,
      by rw [h]; rfl, ?_, ?_⟩
    · intro c hok
      rw [h] at hok
      exact absurd hok (by simp)
    · intro m hm
      rw [h] at hm
      obtain rfl := (Except.error.inj hm).symm
      exact ⟨by rw [h]; rfl, Or.inl ⟨Or.inr rfl, rfl⟩⟩
  · refine ⟨⟨extract_ip ip, "flag-err-inactive", some (correct_flagS raw), some c,
      some user⟩, by rw [h]; rfl, ?_, ?_⟩
    · intro c' hok
      rw [h] at hok
      exact absurd hok (by simp)
    · intro m hm
      rw [h] at hm
      obtain rfl := (Except.error.inj hm).symm
      exact ⟨by rw [h]; rfl, Or.inr (Or.inl ⟨rfl, rfl⟩)⟩
  · refine ⟨⟨extract_ip ip, "flag-err-solved", some (correct_flagS raw), some c,
      some user⟩, by rw [h]; rfl, ?_, ?_⟩
    · intro c' hok
      rw [h] at hok
      exact absurd hok (by simp)
    · intro m hm
      rw [h] at hm
      obtain rfl := (Except.error.inj hm).symm
      exact ⟨by rw [h]; rfl, Or.inr (Or.inr (Or.inl ⟨rfl, rfl⟩))⟩
  · refine ⟨⟨extract_ip ip, "flag-err-used", some (correct_flagS raw), some c,
      some user⟩, by rw [h]; rfl, ?_, ?_⟩
    · intro c' hok
      rw [h] at hok
      exact absurd hok (by simp)
    · intro m hm
      rw [h] at hm
      obtain rfl := (Except.error.inj hm).symm
      exact ⟨by rw [h]; rfl, Or.inr (Or.inr (Or.inr ⟨rfl, rfl⟩))⟩
  · refine ⟨⟨extract_ip ip, "flag-submit", some (correct_flagS raw), some c,
      some user⟩, by rw [h]; rfl, ?_, ?_⟩
    · intro c' hok
      exact ⟨rfl, by rw [h]; rfl⟩
    · intro m hm
      rw [h] at hm
      exact absurd hm (by simp)

/-- Claim C1: once a submission reaches the exhaustion check (user
exists, flag exists, challenge active or force, not already credited),
it is allowed when the number of submission rows for that flag is
strictly below the flag's `max_submissions`, and — unless `force` — it
is rejected with audit type `flag-err-used` and message "Flag already
used too often." once the count has reached `max_submissions`. -/
theorem claim_C1_exhaustion_check (s : Store) (now : Int) (raw user c : String)
    (fl : FlagRow) (ip : IpSource) (force : Bool)
    (hu : user_exists s user = true)
    (hc : flag_challenge s (correct_flagS raw) = some c)
    (hcne : ¬ c = "")
    (hact : is_active s now c = true ∨ force = true)
    (hns : already_submitted s c user = 0)
    (hfl : s.flags.filter (fun f => f.fid = correct_flagS raw) = [fl]) :
    ((sub_count s (correct_flagS raw) : Int) < fl.max_submissions →
      (submit_flag s now raw user ip force).2 = .ok c) ∧
    (force = false → fl.max_submissions ≤ (sub_count s (correct_flagS raw) : Int) →
      submit_flag s now raw user ip force =
        (log s ip "flag-err-used" (some (correct_flagS raw)) (some c) (some user),
          .error "Flag already used too often.")) := by
  rw [submit_flag_active_branch hu hc hcne hact]
  constructor
  · intro hlt
    have hnover : ¬(is_oversubscribed s (correct_flagS raw) = true ∧ force = false) := by
      rintro ⟨hov, _⟩
      rw [is_oversubscribed_of_filter hfl] at hov
      exact absurd hov (not_le.mpr hlt)
    simp [hns, hnover]
  · intro hforce hge
    have hover : is_oversubscribed s (correct_flagS raw) = true :=
      (is_oversubscribed_of_filter hfl).mpr hge
    simp [hns, hover, hforce]

/-- Store for the claim C1 witness: `max_submissions = 1` and one prior
submission by a different user. -/
def storeC1 : Store :=
  ⟨["alice", "bob"], [], [⟨"c1", 0, 100, false⟩], [⟨"f1", "c1", 1⟩], [⟨"alice", "f1"⟩], []⟩

/-- Witness for claim C1: with the cap already reached, a second user's
otherwise-valid submission is rejected with "Flag already used too
often.". -/
theorem claim_C1_witness :
    submit_flag storeC1 50 "f1" "bob" (.str "10.0.0.9") false =
      (log storeC1 (.str "10.0.0.9") "flag-err-used" (some (correct_flagS "f1"))
        (some "c1") (some "bob"), .error "Flag already used too often.") :=
  (claim_C1_exhaustion_check storeC1 50 "f1" "bob" "c1" ⟨"f1", "c1", 1⟩ (.str "10.0.0.9")
    false (by decide) (by decide) (by decide) (Or.inl (by decide)) (by decide)
    (by decide)).2 rfl (by decide)

/-- Claim C2: with `force = true`, only the active-window check and the
exhaustion check are suppressed (their errors can never be produced),
while the user-existence, flag-existence and already-credited checks
still run and reject exactly as with `force = false`. -/
theorem claim_C2_force_scope (s : Store) (now : Int) (raw user : String) (ip : IpSource) :
    (submit_flag s now raw user ip true).2 ≠ .error "Challenge is not active." ∧
    (submit_flag s now raw user ip true).2 ≠ .error "Flag already used too often." ∧
    (user_exists s user = false →
      submit_flag s now raw user ip true = submit_flag s now raw user ip false) ∧
    (user_exists s user = true → flag_challenge s (correct_flagS raw) = none →
      submit_flag s now raw user ip true = submit_flag s now raw user ip false) ∧
    (∀ c, user_exists s user = true → flag_challenge s (correct_flagS raw) = some c →
      ¬ c = "" → already_submitted s c user ≠ 0 →
      submit_flag s now raw user ip true =
        (log s ip "flag-err-solved" (some (correct_flagS raw)) (some c) (some user),
          .error "Challenge already solved.")) := by
  refine ⟨?_, ?_, ?_, ?_, ?_⟩
  · intro hres
    rcases submit_flag_branches s now raw user ip true with
      h | h | ⟨c, h, hf⟩ | ⟨c, h⟩ | ⟨c, h, hf⟩ | ⟨c, h⟩
    · rw [h] at hres
      exact absurd (Except.error.inj hres) (by decide)
    · rw [h] at hres
      exact absurd (Except.error.inj hres) (by decide)
    · exact absurd hf (by decide)
    · rw [h] at hres
      exact absurd (Except.error.inj hres) (by decide)
    · exact absurd hf (by decide)
    · rw [h] at hres
      exact absurd hres (by simp)
  · intro hres
    rcases submit_flag_branches s now raw user ip true with
      h | h | ⟨c, h, hf⟩ | ⟨c, h⟩ | ⟨c, h, hf⟩ | ⟨c, h⟩
    · rw [h] at hres
      exact absurd (Except.error.inj hres) (by decide)
    · rw [h] at hres
      exact absurd (Except.error.inj hres) (by decide)
    · exact absurd hf (by decide)
    · rw [h] at hres
      exact absurd (Except.error.inj hres) (by decide)
    · exact absurd hf (by decide)
    · rw [h] at hres
      exact absurd hres (by simp)
  · intro hu
    rw [submit_flag_user_missing hu, submit_flag_user_missing hu]
  · intro hu hc
    rw [submit_flag_flag_unknown hu hc, submit_flag_flag_unknown hu hc]
  · intro c hu hc hcne hsol
    rw [submit_flag_active_branch hu hc hcne (Or.inr rfl)]
    simp [hsol]

/-- Store for the claim C2 witness: the challenge window is over and
the submitter has already solved it. -/
def storeC2 : Store :=
  ⟨["alice"], [], [⟨"c1", 0, 100, false⟩], [⟨"f1", "c1", 1⟩], [⟨"alice", "f1"⟩], []⟩

/-- Witness for claim C2: with `force = true` and an inactive
challenge, the already-credited check still rejects. -/
theorem claim_C2_witness :
    submit_flag storeC2 200 "f1" "alice" (.str "10.0.0.9") true =
      (log storeC2 (.str "10.0.0.9") "flag-err-solved" (some (correct_flagS "f1"))
        (some "c1") (some "alice"), .error "Challenge already solved.") :=
  (claim_C2_force_scope storeC2 200 "f1" "alice" (.str "10.0.0.9")).2.2.2.2 "c1"
    (by decide) (by decide) (by decide) (by decide)

/-- Claim C3: for a team-scoped challenge, a submission by any teammate
of the submitter (the submitter included) for any flag of the challenge
makes `submit_flag` reject with `flag-err-solved` / "Challenge already
solved."; for a non-team-scoped challenge only the submitter's own
prior submissions for the challenge's flags cause this rejection. -/
theorem claim_C3_team_scope (s : Store) (now : Int) (raw user c : String) (ch : Challenge)
    (ip : IpSource) (force : Bool)
    (hu : user_exists s user = true)
    (hc : flag_challenge s (correct_flagS raw) = some c)
    (hcne : ¬ c = "")
    (hact : is_active s now c = true ∨ force = true)
    (hch : s.challenges.filter (fun x => x.cid = c) = [ch]) :
    (ch.team = true →
      (∃ sub, sub ∈ s.submissions ∧ sub.uid ∈ teammates s user ∧
        ∃ fl, fl ∈ s.flags ∧ fl.fid = sub.fid ∧ fl.cid = c) →
      submit_flag s now raw user ip force =
        (log s ip "flag-err-solved" (some (correct_flagS raw)) (some c) (some user),
          .error "Challenge already solved.")) ∧
    (ch.team = false →
      (submit_flag s now raw user ip force).2 = .error "Challenge already solved." →
      ∃ sub, sub ∈ s.submissions ∧ sub.uid = user ∧
        ∃ fl, fl ∈ s.flags ∧ fl.fid = sub.fid ∧ fl.cid = c) := by
  have hchmem : ch ∈ s.challenges ∧ ch.cid = c := by
    have hm : ch ∈ s.challenges.filter (fun x => x.cid = c) := by
      rw [hch]
      exact List.mem_singleton.mpr rfl
    obtain ⟨h1, h2⟩ := List.mem_filter.mp hm
    exact ⟨h1, by simpa using h2⟩
  rw [submit_flag_active_branch hu hc hcne hact]
  constructor
  · rintro hteam ⟨sub, hsub, hmate, fl, hfl, hfid, hflc⟩
    have hrow : (sub, fl, ch) ∈ solve_rows s c user :=
      mem_solve_rows.mpr ⟨hsub, hfl, hchmem.1, hfid, by rw [hchmem.2, hflc], hchmem.2,
        Or.inr ⟨hteam, hmate⟩⟩
    have hne : already_submitted s c user ≠ 0 :=
      already_submitted_ne_zero.mpr ⟨sub, fl, ch, hrow⟩
    simp [hne]
  · intro hteam hres
    by_cases hsol : already_submitted s c user = 0
    · exfalso
      by_cases hover : is_oversubscribed s (correct_flagS raw) = true ∧ force = false
      · rw [if_neg (by simp [hsol]), if_pos hover] at hres
        exact absurd (Except.error.inj hres) (by decide)
      · rw [if_neg (by simp [hsol]), if_neg hover] at hres
        exact absurd hres (by simp)
    · obtain ⟨sub, fl, ch', hrow⟩ := already_submitted_ne_zero.mp hsol
      obtain ⟨hsub, hfl, hch', hfid, hcid1, hcid2, hcond⟩ := mem_solve_rows.mp hrow
      have hch'eq : ch' = ch := by
        have hm : ch' ∈ s.challenges.filter (fun x => x.cid = c) :=
          List.mem_filter.mpr ⟨hch', by simp [hcid2]⟩
        rw [hch, List.mem_singleton] at hm
        exact hm
      have huid : sub.uid = user := by
        rcases hcond with h | ⟨ht, _⟩
        · exact h
        · rw [hch'eq, hteam] at ht
          exact absurd ht (by decide)
      refine ⟨sub, hsub, huid, fl, hfl, hfid, ?_⟩
      rw [← hcid1]
      exact hcid2

/-- Store for the claim C3 witness: a team-scoped challenge already
solved by the submitter's teammate. -/
def storeC3 : Store :=
  ⟨["alice", "bob"], [("alice", "t1"), ("bob", "t1")], [⟨"c1", 0, 100, true⟩],
    [⟨"f1", "c1", 2⟩], [⟨"alice", "f1"⟩], []⟩

/-- Witness for claim C3: bob never submitted, but alice (same team)
did, so bob's submission fails with "Challenge already solved.". -/
theorem claim_C3_witness :
    submit_flag storeC3 50 "f1" "bob" (.str "10.0.0.9") false =
      (log storeC3 (.str "10.0.0.9") "flag-err-solved" (some (correct_flagS "f1"))
        (some "c1") (some "bob"), .error "Challenge already solved.") :=
  (claim_C3_team_scope storeC3 50 "f1" "bob" "c1" ⟨"c1", 0, 100, true⟩ (.str "10.0.0.9")
    false (by decide) (by decide) (by decide) (Or.inl (by decide)) (by decide)).1 rfl
    ⟨⟨"alice", "f1"⟩, by decide, by decide, ⟨"f1", "c1", 2⟩, by decide, rfl, rfl⟩

/-- Claim C6: with `force = false`, an existing user and an existing
flag, `submit_flag` rejects with `flag-err-inactive` (uid and cid
attached) and "Challenge is not active." exactly when the current time
is outside the closed interval from `t_start` to `t_stop`; inside the
closed interval the window check passes. -/
theorem claim_C6_active_window (s : Store) (now : Int) (raw user c : String)
    (ch : Challenge) (ip : IpSource)
    (hu : user_exists s user = true)
    (hc : flag_challenge s (correct_flagS raw) = some c)
    (hcne : ¬ c = "")
    (hch : s.challenges.filter (fun x => x.cid = c) = [ch]) :
    (¬ (ch.t_start ≤ now ∧ now ≤ ch.t_stop) →
      submit_flag s now raw user ip false =
        (log s ip "flag-err-inactive" (some (correct_flagS raw)) (some c) (some user),
          .error "Challenge is not active.")) ∧
    ((ch.t_start ≤ now ∧ now ≤ ch.t_stop) →
      (submit_flag s now raw user ip false).2 ≠ .error "Challenge is not active.") := by
  constructor
  · intro hwin
    have hia : is_active s now c = false := by
      cases h : is_active s now c with
      | false => rfl
      | true => exact absurd ((is_active_of_filter hch).mp h) hwin
    unfold submit_flag
    simp [hu, hc, hcne, hia]
  · intro hwin
    have hia : is_active s now c = true := (is_active_of_filter hch).mpr hwin
    rw [submit_flag_active_branch hu hc hcne (Or.inl hia)]
    by_cases hsol : already_submitted s c user = 0
    · by_cases hover : is_oversubscribed s (correct_flagS raw) = true ∧ (false : Bool) = false
      · rw [if_neg (by simp [hsol]), if_pos hover]
        intro hres
        exact absurd (Except.error.inj hres) (by decide)
      · rw [if_neg (by simp [hsol]), if_neg hover]
        intro hres
        exact absurd hres (by simp)
    · rw [if_pos hsol]
      intro hres
      exact absurd (Except.error.inj hres) (by decide)

/-- Store for the claim C6 witness: the challenge window is the closed
interval from 0 to 100. -/
def storeC6 : Store :=
  ⟨["alice"], [], [⟨"c1", 0, 100, false⟩], [⟨"f1", "c1", 1⟩], [], []⟩

/-- Witness for claim C6: at time 200 the window check rejects with
"Challenge is not active." and logs `flag-err-inactive` with uid and
cid. -/
theorem claim_C6_witness :
    submit_flag storeC6 200 "f1" "alice" (.str "10.0.0.9") false =
      (log storeC6 (.str "10.0.0.9") "flag-err-inactive" (some (correct_flagS "f1"))
        (some "c1") (some "alice"), .error "Challenge is not active.") :=
  (claim_C6_active_window storeC6 200 "f1" "alice" "c1" ⟨"c1", 0, 100, false⟩
    (.str "10.0.0.9") (by decide) (by decide) (by decide) (by decide)).1 (by decide)

/-- Witness for claim C9, instantiated at a concrete rejected
submission. -/
theorem claim_C9_witness :
    ∃ e : Event,
      (submit_flag storeC5 0 "zzz" "alice" (.str "10.0.0.9") false).1.events =
        storeC5.events ++ [e] ∧
      (∀ c, (submit_flag storeC5 0 "zzz" "alice" (.str "10.0.0.9") false).2 = .ok c →
        e.type = "flag-submit" ∧
        (submit_flag storeC5 0 "zzz" "alice" (.str "10.0.0.9") false).1.submissions =
          storeC5.submissions ++ [⟨"alice", correct_flagS "zzz"⟩]) ∧
      (∀ m, (submit_flag storeC5 0 "zzz" "alice" (.str "10.0.0.9") false).2 = .error m →
        (submit_flag storeC5 0 "zzz" "alice" (.str "10.0.0.9") false).1.submissions =
          storeC5.submissions ∧
        (((m = "Unknown user." ∨ m = unknownFlagMsg) ∧ e.type = "flag-err-unknown") ∨
         (m = "Challenge is not active." ∧ e.type = "flag-err-inactive") ∨
         (m = "Challenge already solved." ∧ e.type = "flag-err-solved") ∨
         (m = "Flag already used too often." ∧ e.type = "flag-err-used"))) :=
  claim_C9_event_accounting storeC5 0 "zzz" "alice" (.str "10.0.0.9") false

end R8
